import Mathlib

/-!
Verification of the asynchronous operation client of the esgocr repository.

The repository contains four Python scripts, each carrying its own copy of
`AzureContentUnderstandingClient`. The copies differ only in two places of
`poll_result`:
  * which lowercased status strings are success terminals
    (`analyze_all_bills.py`, `analyze_multi_periods.py`,
    `create_simple_analyzer_copy.py`: only `succeeded`;
    `create_multi_analyzer.py`: `succeeded` or `ready`), and
  * what the error raised on a `failed` status carries
    (`analyze_all_bills.py`, `analyze_multi_periods.py`:
    `RuntimeError(f"Analysis failed: \x7bresult\x7d")`, the decoded body is
    embedded; `create_multi_analyzer.py`, `create_simple_analyzer_copy.py`:
    `RuntimeError("Request failed.")`, nothing from the body).
We embed the shared loop once, parameterised by these two differences, and
name the four instantiations after their files.

Time is modelled abstractly: the monotonic clock starts at 0 when the loop is
entered, each `time.sleep(polling_interval_seconds)` advances it by exactly
the interval, and the GET itself takes no time; so at the k-th loop entry the
elapsed time is `k * interval`. The scripted sequence of poll responses is a
list; running past its end (where the real code would issue a further network
GET) is the distinguished outcome `scriptExhausted`.
-/

namespace Esgocr

/-- The decoded JSON body of one poll response: its `status` field (absent
allowed, `result.get("status", "")`) and the rest of the payload, abstracted
to a string so that distinct bodies are distinguishable. -/
structure PollBody where
  status : Option String
  data : String
deriving DecidableEq, Repr

/-- One scripted HTTP response to the polling GET: status code and body. -/
structure PollResponse where
  code : Nat
  body : PollBody
deriving DecidableEq, Repr

/-- Counters observed during a polling run: how many GETs were issued and how
many sleeps were performed. -/
structure PollStats where
  gets : Nat
  sleeps : Nat
deriving DecidableEq, Repr

/-- The ways `poll_result` can raise.

`timeout reported elapsed`: a `TimeoutError` whose message interpolates
`reported` (the code writes
`f"Operation timed out after \x7btimeout_seconds:.2f\x7d seconds."`), raised
when the elapsed time was `elapsed`.

`analysisFailed carried`: the `RuntimeError` of the `failed` branch;
`carried` is the decoded body when the message embeds it
(`f"Analysis failed: \x7bresult\x7d"`) and `none` when the message is the
fixed string `"Request failed."`.

`httpStatus`: `response.raise_for_status()` raised (4xx or 5xx).

`noOperationLocation`: the `ValueError` for a missing/empty
`operation-location` header. -/
inductive PollErr where
  | noOperationLocation
  | timeout (reported elapsed : Nat)
  | analysisFailed (carried : Option PollBody)
  | httpStatus (code : Nat)
  | scriptExhausted
deriving DecidableEq, Repr

/-- The two points in which the four `poll_result` copies differ:
whether `ready` is also a success terminal, and whether the error raised on
`failed` embeds the decoded body. -/
structure PollVariant where
  readySuccess : Bool
  carriesBody : Bool
deriving DecidableEq, Repr

/-- `poll_result` of `analyze_all_bills.py` (lines 200-241): success terminal
`succeeded` only; the `failed` error embeds the body. -/
def analyzeAllBillsVariant : PollVariant := ⟨false, true⟩

/-- `poll_result` of `analyze_multi_periods.py` (lines 246-287): identical to
the `analyze_all_bills.py` copy. -/
def analyzeMultiPeriodsVariant : PollVariant := ⟨false, true⟩

/-- `poll_result` of `create_multi_analyzer.py` (lines 206-250): success
terminals `succeeded` and `ready`; the `failed` error is the fixed string
`"Request failed."`. -/
def createMultiAnalyzerVariant : PollVariant := ⟨true, false⟩

/-- `poll_result` of `create_simple_analyzer_copy.py` (lines 150-194):
success terminal `succeeded` only; the `failed` error is the fixed string
`"Request failed."`. -/
def createSimpleCopyVariant : PollVariant := ⟨false, false⟩

/-- The lowercased status of a poll body: `result.get("status", "").lower()`.
Lowercasing maps `Char.toLower` over the characters (as `String.toLower`
does, stated directly on the character list so that it evaluates inside the
kernel). -/
def statusLower (b : PollBody) : String :=
  ⟨(b.status.getD "").data.map Char.toLower⟩

/-- `requests` raises from `raise_for_status()` exactly when the status code
is 4xx or 5xx. -/
def isHttpErrorCode (code : Nat) : Prop := 400 ≤ code ∧ code < 600

instance (code : Nat) : Decidable (isHttpErrorCode code) := by
  unfold isHttpErrorCode; infer_instance

/-- The `while True` loop of `poll_result`, entered for the `k`-th time with
`gets` GETs and `sleeps` sleeps already performed and `script` the responses
still to come. Each iteration, in source order: compare elapsed time against
the budget; issue the GET; `raise_for_status`; read the status
case-insensitively; return on a success terminal; raise on `failed`;
otherwise sleep one interval and loop. -/
def pollLoop (v : PollVariant) (timeout interval : Nat) :
    List PollResponse → Nat → Nat → Nat → Except PollErr PollBody × PollStats
  | script, k, gets, sleeps =>
    if k * interval > timeout then
      (.error (.timeout timeout (k * interval)), ⟨gets, sleeps⟩)
    else
      match script with
      | [] => (.error .scriptExhausted, ⟨gets, sleeps⟩)
      | r :: rest =>
        if isHttpErrorCode r.code then
          (.error (.httpStatus r.code), ⟨gets + 1, sleeps⟩)
        else if statusLower r.body = "succeeded" ∨
            (v.readySuccess ∧ statusLower r.body = "ready") then
          (.ok r.body, ⟨gets + 1, sleeps⟩)
        else if statusLower r.body = "failed" then
          (.error (.analysisFailed (if v.carriesBody then some r.body else none)),
            ⟨gets + 1, sleeps⟩)
        else
          pollLoop v timeout interval rest (k + 1) (gets + 1) (sleeps + 1)

/-- `poll_result`: read `operation-location` from the submission response's
headers with default `""`; raise if falsy; otherwise run the polling loop
from time 0. -/
def pollResult (v : PollVariant) (opLocation : Option String)
    (timeout interval : Nat) (script : List PollResponse) :
    Except PollErr PollBody × PollStats :=
  if opLocation.getD "" = "" then (.error .noOperationLocation, ⟨0, 0⟩)
  else pollLoop v timeout interval script 0 0 0

/-! ## Credentials and headers

`Settings.__post_init__` and `AzureContentUnderstandingClient.__init__` /
`_get_headers` are identical in all four scripts; we embed the
`analyze_all_bills.py` copy (lines 94-149 and 246-256). A Python
`str | None` is an `Option String`; Python truthiness of such a value is
"`some` of a non-empty string". -/

/-- The placeholder sentinel for the subscription key recognised by
`Settings.__post_init__`. -/
def keyPlaceholder : String := "AZURE_CONTENT_UNDERSTANDING_SUBSCRIPTION_KEY"

/-- The placeholder sentinel for the AAD token recognised by
`Settings.__post_init__`. -/
def tokenPlaceholder : String := "AZURE_CONTENT_UNDERSTANDING_AAD_TOKEN"

/-- `not self.subscription_key or self.subscription_key == <placeholder>`. -/
def keyNotProvided (key : Option String) : Prop :=
  key.getD "" = "" ∨ key = some keyPlaceholder

instance (key : Option String) : Decidable (keyNotProvided key) := by
  unfold keyNotProvided; infer_instance

/-- `not self.aad_token or self.aad_token == <placeholder>`. -/
def tokenNotProvided (token : Option String) : Prop :=
  token.getD "" = "" ∨ token = some tokenPlaceholder

instance (token : Option String) : Decidable (tokenNotProvided token) := by
  unfold tokenNotProvided; infer_instance

/-- The exceptions raised while constructing `Settings` and the client. -/
inductive InitErr where
  | missingCredentials
  | clientMissingCredentials
  | missingApiVersion
  | missingEndpoint
deriving DecidableEq, Repr

/-- `Settings.__post_init__`: raise when both the key and the token are
absent, empty, or equal to their placeholder sentinel. -/
def settingsPostInit (key token : Option String) : Except InitErr Unit :=
  if keyNotProvided key ∧ tokenNotProvided token then
    .error .missingCredentials
  else .ok ()

/-- `Settings.token_provider`: `None` when `aad_token` is `None`, otherwise a
lambda returning the token. We record only what the provider, if any,
returns. -/
def tokenProviderOf (aadToken : Option String) : Option String := aadToken

/-- The argument chain `token_provider and token_provider()` of
`__init__`: `None` when the provider is `None` (a lambda is always truthy),
otherwise the provider's result. -/
def resolvedToken (tokenProvider : Option String) : Option String :=
  tokenProvider

/-- `AzureContentUnderstandingClient._get_headers`: a subscription-key header
when the key is truthy, otherwise a bearer header (`None` interpolates as the
string `"None"`), plus the fixed client-identification header. -/
def getHeaders (key token : Option String) (useragent : String) :
    List (String × String) :=
  (if key.getD "" ≠ "" then [("Ocp-Apim-Subscription-Key", key.getD "")]
   else [("Authorization", "Bearer " ++ token.getD "None")]) ++
    [("x-ms-useragent", useragent)]

/-- The guard clauses of `AzureContentUnderstandingClient.__init__`, in
source order: credentials, api version, endpoint. -/
def clientInitChecks (endpoint apiVersion : String)
    (key tokenProvider : Option String) : Except InitErr Unit :=
  if key.getD "" = "" ∧ tokenProvider = none then
    .error .clientMissingCredentials
  else if apiVersion = "" then .error .missingApiVersion
  else if endpoint = "" then .error .missingEndpoint
  else .ok ()

/-- Constructing `Settings` and then the client exactly as the scripts'
`main` does, yielding the client's header set. -/
def constructClient (endpoint apiVersion : String) (key aadToken : Option String)
    (useragent : String) : Except InitErr (List (String × String)) :=
  match settingsPostInit key aadToken with
  | .error e => .error e
  | .ok _ =>
    match clientInitChecks endpoint apiVersion key (tokenProviderOf aadToken) with
    | .error e => .error e
    | .ok _ =>
      .ok (getHeaders key (resolvedToken (tokenProviderOf aadToken)) useragent)

/-- A credential is valid when present, non-empty and not its placeholder. -/
def validCred (cred : Option String) (placeholder : String) : Prop :=
  cred.getD "" ≠ "" ∧ cred ≠ some placeholder

instance (cred : Option String) (placeholder : String) :
    Decidable (validCred cred placeholder) := by
  unfold validCred; infer_instance

/-- How many of the two authorization headers a header list carries. -/
def authHeaderCount (headers : List (String × String)) : Nat :=
  (headers.filter
    (fun p => p.1 = "Ocp-Apim-Subscription-Key" ∨ p.1 = "Authorization")).length

/-! ## Submission: `begin_analyze` and `_get_analyze_url`

Embedded from `analyze_all_bills.py` lines 151-198 and 243-244 (the
`analyze_multi_periods.py` copy is identical). The local filesystem is a map
from paths to file contents (`none` = `Path(...).exists()` is false); file
bytes are a list of naturals. -/

/-- Whether `p` occurs as a contiguous substring of a character list: scan
every suffix for `p` as a prefix. -/
def listContainsSub (p : List Char) : List Char → Bool
  | [] => p.isPrefixOf []
  | c :: rest => p.isPrefixOf (c :: rest) || listContainsSub p rest

/-- Whether `pat` occurs as a contiguous substring of `s` — the Python
expression `pat in s`. -/
def strContainsSub (pat : String) (s : String) : Bool :=
  listContainsSub pat.data s.data

/-- The request body built by `begin_analyze`: the file's raw bytes, or the
JSON object `\x7b"url": <loc>\x7d`. -/
inductive ReqBody where
  | rawBytes (bs : List Nat)
  | jsonUrl (url : String)
deriving DecidableEq, Repr

/-- The errors `begin_analyze` can raise before or after the POST. -/
inductive BeginErr where
  | invalidTarget
  | httpError (code : Nat) (body : String)
deriving DecidableEq, Repr

/-- The single POST request `begin_analyze` issues. -/
structure PostRequest where
  url : String
  contentType : String
  body : ReqBody
deriving DecidableEq, Repr

/-- `_get_analyze_url`: the deterministic submission URL. The argument order
matches the source (`endpoint, api_version, analyzer_id`). -/
def getAnalyzeUrl (endpoint apiVersion analyzerId : String) : String :=
  endpoint ++ "/contentunderstanding/analyzers/" ++ analyzerId ++
    ":analyze?api-version=" ++ apiVersion

/-- The target-classification prefix of `begin_analyze` (lines 168-176):
`Path(file_location).exists()` first, then `"https://" in file_location or
"http://" in file_location`, else `ValueError`. -/
def classifyTarget (fs : String → Option (List Nat)) (loc : String) :
    Except BeginErr (ReqBody × String) :=
  match fs loc with
  | some bs => .ok (.rawBytes bs, "application/octet-stream")
  | none =>
    if strContainsSub "https://" loc || strContainsSub "http://" loc then
      .ok (.jsonUrl loc, "application/json")
    else .error .invalidTarget

/-- `begin_analyze` up to the network call: classify the target and build the
one POST request; an invalid target raises before any request exists. -/
def beginAnalyzeRequest (fs : String → Option (List Nat))
    (endpoint apiVersion analyzerId loc : String) : Except BeginErr PostRequest :=
  match classifyTarget fs loc with
  | .error e => .error e
  | .ok (body, contentType) =>
    .ok ⟨getAnalyzeUrl endpoint apiVersion analyzerId, contentType, body⟩

/-- An HTTP response to the submission POST. -/
structure HttpResponse where
  code : Nat
  body : String
  operationLocation : Option String
deriving DecidableEq, Repr

/-- `response.raise_for_status()` after the POST: raise an `HTTPError`
carrying the status code and body on a 4xx or 5xx code, otherwise return the
response. -/
def beginAnalyzeResult (resp : HttpResponse) : Except BeginErr HttpResponse :=
  if isHttpErrorCode resp.code then .error (.httpError resp.code resp.body)
  else .ok resp

/-! ## Numeric coercion: `parse_consumption`

Embedded from `analyze_multi_periods.py` lines 115-136. Python floats whose
text is a decimal numeral matched by `[-+]?\d*\.?\d+` are represented
exactly as rationals; the special values `float` accepts without any digit
(`inf`, `infinity`, `nan`, optionally signed) get their own constructors.
`\d` is modelled as the ASCII digits (the scripts' data is ASCII-numeric). -/

/-- The value space of `float(...)` as far as this code exercises it:
finite values (exact, as rationals) and the digit-free specials. -/
inductive PyNum where
  | fin (q : ℚ)
  | inf
  | ninf
  | nan
deriving DecidableEq, Repr

/-- The dynamically-typed argument of `parse_consumption`: an
`isinstance(..., (int, float))` numeric or a string. -/
inductive ConsVal where
  | num (x : PyNum)
  | str (s : String)
deriving DecidableEq, Repr

/-- `consumption_str.replace(',', '').replace(' ', '')` as a character
list. -/
def cleanChars (s : String) : List Char :=
  s.data.filter (fun c => c ≠ ',' ∧ c ≠ ' ')

/-- The core of the regex `[-+]?\d*\.?\d+` at a fixed position, after the
optional sign: greedy digits, then an optional dot that must be followed by
at least one digit to be kept — backtracking otherwise gives the plain digit
run. `none` when no digit can be matched at all. -/
def numCore (cs : List Char) : Option (List Char) :=
  match cs.dropWhile Char.isDigit with
  | '.' :: rest2 =>
    if (rest2.takeWhile Char.isDigit) ≠ [] then
      some (cs.takeWhile Char.isDigit ++ '.' :: rest2.takeWhile Char.isDigit)
    else if (cs.takeWhile Char.isDigit) ≠ [] then
      some (cs.takeWhile Char.isDigit)
    else none
  | _ =>
    if (cs.takeWhile Char.isDigit) ≠ [] then
      some (cs.takeWhile Char.isDigit)
    else none

/-- The regex `[-+]?\d*\.?\d+` anchored at the head of `cs`: an optional
sign, then the core. (When a sign is present but the core fails after it,
re-trying without consuming the sign cannot succeed either, since the sign
character is neither a digit nor a dot.) -/
def numAt (cs : List Char) : Option (List Char) :=
  match cs with
  | c :: rest =>
    if c = '+' ∨ c = '-' then (numCore rest).map (fun m => c :: m)
    else numCore cs
  | [] => none

/-- `re.search(r'[-+]?\d*\.?\d+', ...)`: the match at the leftmost position
where one exists. -/
def searchNum : List Char → Option (List Char)
  | [] => none
  | c :: rest =>
    match numAt (c :: rest) with
    | some m => some m
    | none => searchNum rest

/-- The natural number denoted by a run of ASCII digits. -/
def digitsToNat (ds : List Char) : Nat :=
  ds.foldl (fun acc c => 10 * acc + (c.toNat - '0'.toNat)) 0

/-- The rational denoted by an unsigned decimal numeral
(`digits* ('.' digits+)?`). -/
def decCore (cs : List Char) : ℚ :=
  (digitsToNat (cs.takeWhile (fun c => c ≠ '.')) : ℚ) +
    (digitsToNat ((cs.dropWhile (fun c => c ≠ '.')).drop 1) : ℚ) /
      (10 ^ ((cs.dropWhile (fun c => c ≠ '.')).drop 1).length : ℚ)

/-- The rational denoted by a signed decimal numeral as matched by the
regex; `float` parses such a match exactly. -/
def decToRat (cs : List Char) : ℚ :=
  match cs with
  | '+' :: rest => decCore rest
  | '-' :: rest => -(decCore rest)
  | _ => decCore cs

/-- The whitespace `float(...)` strips around its argument (ASCII forms). -/
def pyWhitespace (c : Char) : Bool :=
  c = ' ' ∨ c = '\t' ∨ c = '\n' ∨ c = '\r' ∨ c = '\x0b' ∨ c = '\x0c'

/-- Strip leading and trailing whitespace from a character list. -/
def pyStrip (cs : List Char) : List Char :=
  ((cs.dropWhile pyWhitespace).reverse.dropWhile pyWhitespace).reverse

/-- What `float(...)` yields on a digit-free string: the optionally signed
words `inf`, `infinity` and `nan`, case-insensitively, modulo surrounding
whitespace; everything else raises `ValueError`. -/
def specialOf (cs : List Char) : Option PyNum :=
  match (pyStrip cs).map Char.toLower with
  | '+' :: u =>
    if u = "inf".data ∨ u = "infinity".data then some .inf
    else if u = "nan".data then some .nan
    else none
  | '-' :: u =>
    if u = "inf".data ∨ u = "infinity".data then some .ninf
    else if u = "nan".data then some .nan
    else none
  | u =>
    if u = "inf".data ∨ u = "infinity".data then some .inf
    else if u = "nan".data then some .nan
    else none

/-- `parse_consumption`: an `isinstance(..., (int, float))` value is returned
as-is; a string is cleaned of commas and spaces, the first regex match is
parsed as a float (always a finite decimal); with no match, `float` is
attempted on the whole cleaned string, which succeeds only on the digit-free
specials; any failure falls through to `return 0`. -/
def parse_consumption : ConsVal → PyNum
  | .num x => x
  | .str s =>
    match searchNum (cleanChars s) with
    | some m => .fin (decToRat m)
    | none =>
      match specialOf (cleanChars s) with
      | some v => v
      | none => .fin 0

/-! ## Claim-side definitions

These two definitions follow the words of spec claims, for comparison with
the embedded code. -/

/-- The claim's notion of a string "shaped like a URL": carrying a URL
scheme prefix, per the spec's "then URL scheme prefix". -/
def urlSchemePrefixShaped (loc : String) : Bool :=
  "https://".data.isPrefixOf loc.data || "http://".data.isPrefixOf loc.data

/-- The submission URL template as the claim words it:
`\x7bbase-endpoint\x7d/analyzers/\x7banalyzer-id\x7d:analyze?api-version=\x7bversion\x7d`. -/
def claimedAnalyzeUrl (endpoint apiVersion analyzerId : String) : String :=
  endpoint ++ "/analyzers/" ++ analyzerId ++ ":analyze?api-version=" ++ apiVersion

/-! ## Helper lemmas -/

/-- Every normal return of the polling loop is the body of a scripted
response whose lowercased status is a success terminal of the variant. -/
lemma pollLoop_ok_source (v : PollVariant) (t i : Nat) :
    ∀ (script : List PollResponse) (k g s : Nat) (b : PollBody) (st : PollStats),
      pollLoop v t i script k g s = (.ok b, st) →
      ∃ r ∈ script, r.body = b ∧
        (statusLower b = "succeeded" ∨ (v.readySuccess ∧ statusLower b = "ready")) := by
  intro script
  induction script with
  | nil =>
    intro k g s b st h
    rw [pollLoop] at h
    split at h
    · exact absurd h (by simp)
    · exact absurd h (by simp)
  | cons r rest ih =>
    intro k g s b st h
    rw [pollLoop] at h
    split at h
    · simp at h
    · split at h
      · simp at h
      · split at h
        · rename_i hcond
          have hb : r.body = b := by simpa using congrArg Prod.fst h
          exact ⟨r, List.mem_cons_self r rest, hb, hb ▸ hcond⟩
        · split at h
          · simp at h
          · obtain ⟨r', hr', hrest⟩ := ih _ _ _ _ _ h
            exact ⟨r', List.mem_cons_of_mem r hr', hrest⟩

/-! ## Claims about the polling loop -/

/-- C1, counterexample: the claim says a poll response whose status is the
success terminal `ready` of an analyzer-provisioning operation makes
`poll_result` return the body immediately; but the
`create_simple_analyzer_copy.py` copy — which polls an analyzer-provisioning
operation — accepts only `succeeded`, so on a `Ready` response it sleeps once
and keeps polling instead of returning. -/
theorem c1_counterexample :
    pollResult createSimpleCopyVariant (some "https://op") 300 2
        [⟨200, ⟨some "Ready", "payload"⟩⟩] =
      (.error .scriptExhausted, ⟨1, 1⟩) ∧
    (pollResult createSimpleCopyVariant (some "https://op") 300 2
        [⟨200, ⟨some "Ready", "payload"⟩⟩]).2.sleeps ≠ 0 := by
  constructor
  · rfl
  · decide

/-- C1, amended: for every poll response whose lowercased status is a success
terminal of the variant at hand — `succeeded` in every copy, and additionally
`ready` only in the `create_multi_analyzer.py` copy (the
`create_simple_analyzer_copy.py` provisioning copy accepts only `succeeded`)
— `poll_result` returns the full decoded body immediately, with no further
GET and no sleep; and every normal exit of the loop is of this form. -/
theorem c1_success_terminal :
    (∀ (v : PollVariant) (loc : String) (t i : Nat) (r : PollResponse)
        (rest : List PollResponse), loc ≠ "" → ¬ isHttpErrorCode r.code →
        (statusLower r.body = "succeeded" ∨
          (v.readySuccess ∧ statusLower r.body = "ready")) →
        pollResult v (some loc) t i (r :: rest) = (.ok r.body, ⟨1, 0⟩)) ∧
    (createMultiAnalyzerVariant.readySuccess = true ∧
      createSimpleCopyVariant.readySuccess = false ∧
      analyzeAllBillsVariant.readySuccess = false ∧
      analyzeMultiPeriodsVariant.readySuccess = false) ∧
    (∀ (v : PollVariant) (opLoc : Option String) (t i : Nat)
        (script : List PollResponse) (b : PollBody) (st : PollStats),
        pollResult v opLoc t i script = (.ok b, st) →
        ∃ r ∈ script, r.body = b ∧
          (statusLower b = "succeeded" ∨
            (v.readySuccess ∧ statusLower b = "ready"))) := by
  refine ⟨?_, ⟨rfl, rfl, rfl, rfl⟩, ?_⟩
  · intro v loc t i r rest hloc hcode hsucc
    unfold pollResult
    rw [if_neg (show ¬((some loc).getD "" = "") from hloc)]
    rw [pollLoop]
    rw [if_neg (show ¬(0 * i > t) by omega)]
    rw [if_neg hcode, if_pos hsucc]
  · intro v opLoc t i script b st h
    unfold pollResult at h
    split at h
    · simp at h
    · exact pollLoop_ok_source v t i script 0 0 0 b st h

/-- C1, witness: a concrete `Ready` response returned immediately by the
`create_multi_analyzer.py` copy. -/
theorem c1_success_terminal_witness :
    pollResult createMultiAnalyzerVariant (some "https://op") 300 2
        [⟨200, ⟨some "Ready", "done"⟩⟩] = (.ok ⟨some "Ready", "done"⟩, ⟨1, 0⟩) :=
  c1_success_terminal.1 createMultiAnalyzerVariant "https://op" 300 2
    ⟨200, ⟨some "Ready", "done"⟩⟩ [] (by decide) (by decide) (Or.inr ⟨by decide, by decide⟩)

/-- C2, counterexample: the claim says the error raised on a `failed` status
carries the full decoded body; but the `create_multi_analyzer.py` copy raises
the fixed `RuntimeError("Request failed.")`, so two runs whose failed bodies
differ raise the very same error — the body cannot be recovered from it. -/
theorem c2_counterexample :
    (pollResult createMultiAnalyzerVariant (some "https://op") 300 2
        [⟨200, ⟨some "Failed", "reasonA"⟩⟩]).1 =
      (pollResult createMultiAnalyzerVariant (some "https://op") 300 2
        [⟨200, ⟨some "Failed", "reasonB"⟩⟩]).1 ∧
    ("reasonA" : String) ≠ "reasonB" := by
  constructor
  · rfl
  · decide

/-- C2, amended: a poll response whose lowercased status is `failed` makes
`poll_result` raise immediately — one GET, no sleep, no retry, for every
remaining time budget; the raised error embeds the full decoded body in the
two analysis copies (`analyze_all_bills.py`, `analyze_multi_periods.py`) and
carries nothing from the body in the two analyzer-provisioning copies, whose
message is the fixed `"Request failed."`. -/
theorem c2_failed_raises :
    (∀ (v : PollVariant) (loc : String) (t i : Nat) (r : PollResponse)
        (rest : List PollResponse), loc ≠ "" → ¬ isHttpErrorCode r.code →
        statusLower r.body = "failed" →
        pollResult v (some loc) t i (r :: rest) =
          (.error (.analysisFailed (if v.carriesBody then some r.body else none)),
            ⟨1, 0⟩)) ∧
    analyzeAllBillsVariant.carriesBody = true ∧
    analyzeMultiPeriodsVariant.carriesBody = true ∧
    createMultiAnalyzerVariant.carriesBody = false ∧
    createSimpleCopyVariant.carriesBody = false := by
  refine ⟨?_, rfl, rfl, rfl, rfl⟩
  intro v loc t i r rest hloc hcode hs
  unfold pollResult
  rw [if_neg (show ¬((some loc).getD "" = "") from hloc)]
  rw [pollLoop]
  rw [if_neg (show ¬(0 * i > t) by omega)]
  rw [if_neg hcode]
  rw [if_neg (show ¬(statusLower r.body = "succeeded" ∨
    (v.readySuccess ∧ statusLower r.body = "ready")) by simp [hs])]
  rw [if_pos hs]

/-- C2, witness: a concrete failed body raised with the body embedded by the
`analyze_all_bills.py` copy. -/
theorem c2_failed_raises_witness :
    pollResult analyzeAllBillsVariant (some "https://op") 300 2
        [⟨200, ⟨some "Failed", "diag"⟩⟩] =
      (.error (.analysisFailed (some ⟨some "Failed", "diag"⟩)), ⟨1, 0⟩) :=
  c2_failed_raises.1 analyzeAllBillsVariant "https://op" 300 2
    ⟨200, ⟨some "Failed", "diag"⟩⟩ [] (by decide) (by decide) (by decide)

/-- C3, counterexample: the claim says the `TimeoutError` message reports the
elapsed seconds since the start timestamp; but the code interpolates
`timeout_seconds`. With budget 1 and interval 2 the raise happens when the
elapsed time is 2, yet the message says 1. -/
theorem c3_counterexample :
    pollResult analyzeAllBillsVariant (some "https://op") 1 2
        [⟨200, ⟨some "Running", "r1"⟩⟩, ⟨200, ⟨some "Running", "r2"⟩⟩,
          ⟨200, ⟨some "Running", "r3"⟩⟩] =
      (.error (.timeout 1 2), ⟨1, 1⟩) ∧ (1 : Nat) ≠ 2 := by
  constructor
  · rfl
  · decide

/-- C3, amended: when every response is non-terminal and the caller-supplied
timeout is smaller than one polling interval, `poll_result` raises
`TimeoutError` at the next loop entry after the first sleep (one GET, one
sleep), and the message reports the configured `timeout_seconds` budget — not
the elapsed seconds, which at that point equal the interval. -/
theorem c3_timeout_next_entry :
    ∀ (v : PollVariant) (loc : String) (t i : Nat) (r : PollResponse)
      (rest : List PollResponse), loc ≠ "" → ¬ isHttpErrorCode r.code →
      statusLower r.body ≠ "succeeded" → statusLower r.body ≠ "ready" →
      statusLower r.body ≠ "failed" → t < i →
      pollResult v (some loc) t i (r :: rest) =
        (.error (.timeout t i), ⟨1, 1⟩) := by
  intro v loc t i r rest hloc hcode hs1 hs2 hs3 ht
  unfold pollResult
  rw [if_neg (show ¬((some loc).getD "" = "") from hloc)]
  rw [pollLoop]
  rw [if_neg (show ¬(0 * i > t) by omega)]
  rw [if_neg hcode]
  rw [if_neg (show ¬(statusLower r.body = "succeeded" ∨
    (v.readySuccess ∧ statusLower r.body = "ready")) by simp [hs1, hs2])]
  rw [if_neg hs3]
  rw [pollLoop.eq_def]
  dsimp only
  rw [if_pos (show (0 + 1) * i > t by omega)]
  norm_num

/-- C3, witness: budget 1, interval 2, a single `Running` response. -/
theorem c3_timeout_next_entry_witness :
    pollResult analyzeAllBillsVariant (some "https://op") 1 2
        [⟨200, ⟨some "Running", "r1"⟩⟩] = (.error (.timeout 1 2), ⟨1, 1⟩) :=
  c3_timeout_next_entry analyzeAllBillsVariant "https://op" 1 2
    ⟨200, ⟨some "Running", "r1"⟩⟩ [] (by decide) (by decide) (by decide)
    (by decide) (by decide) (by decide)

/-- C4: given the scripted statuses `[Running, Running, Succeeded]` (all with
non-error HTTP codes) and a timeout budget of at least two intervals,
`poll_result` returns exactly the third decoded body, having issued three
GETs and slept exactly twice, each time for the configured constant
interval. -/
theorem c4_three_responses :
    ∀ (v : PollVariant) (loc : String) (t i : Nat) (r1 r2 r3 : PollResponse),
      loc ≠ "" →
      ¬ isHttpErrorCode r1.code → ¬ isHttpErrorCode r2.code →
      ¬ isHttpErrorCode r3.code →
      statusLower r1.body = "running" → statusLower r2.body = "running" →
      statusLower r3.body = "succeeded" →
      2 * i ≤ t →
      pollResult v (some loc) t i [r1, r2, r3] = (.ok r3.body, ⟨3, 2⟩) := by
  intro v loc t i r1 r2 r3 hloc hc1 hc2 hc3 hs1 hs2 hs3 ht
  unfold pollResult
  rw [if_neg (show ¬((some loc).getD "" = "") from hloc)]
  rw [pollLoop]
  rw [if_neg (show ¬(0 * i > t) by omega)]
  rw [if_neg hc1]
  rw [if_neg (show ¬(statusLower r1.body = "succeeded" ∨
    (v.readySuccess ∧ statusLower r1.body = "ready")) by simp [hs1])]
  rw [if_neg (show ¬(statusLower r1.body = "failed") by simp [hs1])]
  rw [pollLoop]
  rw [if_neg (show ¬((0 + 1) * i > t) by omega)]
  rw [if_neg hc2]
  rw [if_neg (show ¬(statusLower r2.body = "succeeded" ∨
    (v.readySuccess ∧ statusLower r2.body = "ready")) by simp [hs2])]
  rw [if_neg (show ¬(statusLower r2.body = "failed") by simp [hs2])]
  rw [pollLoop]
  rw [if_neg (show ¬((0 + 1 + 1) * i > t) by omega)]
  rw [if_neg hc3]
  rw [if_pos (show statusLower r3.body = "succeeded" ∨
    (v.readySuccess ∧ statusLower r3.body = "ready") from Or.inl hs3)]

/-- C4, witness: a concrete `[Running, Running, Succeeded]` script under the
scripts' default-style budget. -/
theorem c4_three_responses_witness :
    pollResult analyzeAllBillsVariant (some "https://op") 300 2
        [⟨200, ⟨some "Running", "r1"⟩⟩, ⟨200, ⟨some "Running", "r2"⟩⟩,
          ⟨200, ⟨some "Succeeded", "r3"⟩⟩] =
      (.ok ⟨some "Succeeded", "r3"⟩, ⟨3, 2⟩) :=
  c4_three_responses analyzeAllBillsVariant "https://op" 300 2
    ⟨200, ⟨some "Running", "r1"⟩⟩ ⟨200, ⟨some "Running", "r2"⟩⟩
    ⟨200, ⟨some "Succeeded", "r3"⟩⟩ (by decide) (by decide) (by decide)
    (by decide) (by decide) (by decide) (by decide) (by decide)

/-- C8: a submission response whose `operation-location` header is absent or
empty makes `poll_result` raise the operation-handle-missing error with zero
GETs issued and zero sleeps performed — nothing is retried, no operation can
be tracked. -/
theorem c8_missing_operation_location :
    ∀ (v : PollVariant) (t i : Nat) (script : List PollResponse),
      pollResult v none t i script = (.error .noOperationLocation, ⟨0, 0⟩) ∧
      pollResult v (some "") t i script =
        (.error .noOperationLocation, ⟨0, 0⟩) := by
  intro v t i script
  exact ⟨rfl, rfl⟩

/-! ## Claims about credentials, submission and numeric coercion -/

/-- A credential is valid exactly when the source's "not provided" test on it
fails. -/
lemma validCred_key_not (key : Option String) :
    validCred key keyPlaceholder ↔ ¬ keyNotProvided key := by
  unfold validCred keyNotProvided
  tauto

/-- A token credential is valid exactly when the source's "not provided" test
on it fails. -/
lemma validCred_token_not (token : Option String) :
    validCred token tokenPlaceholder ↔ ¬ tokenNotProvided token := by
  unfold validCred tokenNotProvided
  tauto

/-- C7: with both the key and the token absent, empty or equal to their
placeholder sentinels, `Settings.__post_init__` raises; with exactly one
valid credential, constructing `Settings` and the client succeeds and the
produced header set carries exactly one authorization header plus the fixed
client-identification header. -/
theorem c7_credential_validation :
    (∀ key token : Option String, keyNotProvided key → tokenNotProvided token →
        settingsPostInit key token = .error .missingCredentials) ∧
    (∀ (e v : String) (key token : Option String) (ua : String),
        e ≠ "" → v ≠ "" →
        (validCred key keyPlaceholder ∧ ¬ validCred token tokenPlaceholder) ∨
          (¬ validCred key keyPlaceholder ∧ validCred token tokenPlaceholder) →
        ∃ hs, constructClient e v key token ua = .ok hs ∧
          authHeaderCount hs = 1 ∧ ("x-ms-useragent", ua) ∈ hs) := by
  constructor
  · intro key token h1 h2
    unfold settingsPostInit
    rw [if_pos ⟨h1, h2⟩]
  · intro e v key token ua he hv hone
    have hsp : settingsPostInit key token = .ok () := by
      unfold settingsPostInit
      rw [if_neg]
      rintro ⟨h1, h2⟩
      rcases hone with ⟨hk, -⟩ | ⟨-, ht⟩
      · exact (validCred_key_not key).mp hk h1
      · exact (validCred_token_not token).mp ht h2
    have hcc : clientInitChecks e v key token = .ok () := by
      unfold clientInitChecks
      rw [if_neg, if_neg hv, if_neg he]
      rintro ⟨h1, h2⟩
      rcases hone with ⟨hk, -⟩ | ⟨-, ht⟩
      · exact hk.1 h1
      · have : token = none := h2
        rw [this] at ht
        exact ht.1 rfl
    refine ⟨getHeaders key token ua, ?_, ?_, ?_⟩
    · simp [constructClient, hsp, hcc, resolvedToken, tokenProviderOf]
    · by_cases hkd : key.getD "" = ""
      · simp [getHeaders, authHeaderCount, hkd]
      · simp [getHeaders, authHeaderCount, hkd]
    · by_cases hkd : key.getD "" = ""
      · simp [getHeaders, hkd]
      · simp [getHeaders, hkd]

/-- C7, witness: both credentials placeholder/empty is rejected; a lone
subscription key yields one auth header plus the client tag. -/
theorem c7_credential_validation_witness :
    settingsPostInit (some "") (some "AZURE_CONTENT_UNDERSTANDING_AAD_TOKEN") =
      .error .missingCredentials ∧
    ∃ hs, constructClient "https://e" "2024-12-01-preview" (some "secretkey")
        none "cu-sample-code" = .ok hs ∧
      authHeaderCount hs = 1 ∧ ("x-ms-useragent", "cu-sample-code") ∈ hs :=
  ⟨c7_credential_validation.1 (some "") (some "AZURE_CONTENT_UNDERSTANDING_AAD_TOKEN")
      (by decide) (by decide),
    c7_credential_validation.2 "https://e" "2024-12-01-preview" (some "secretkey")
      none "cu-sample-code" (by decide) (by decide) (Or.inl ⟨by decide, by decide⟩)⟩

/-- C10: with both a non-empty subscription key and a token provider
supplied, client construction succeeds and the key takes precedence — the
header set is the subscription-key header plus the client tag, with no
bearer `Authorization` header; and for every credential pair the header set
never carries both authorization headers at once. -/
theorem c10_key_precedence :
    (∀ (e v k tok ua : String), e ≠ "" → v ≠ "" → k ≠ "" →
        clientInitChecks e v (some k) (some tok) = .ok () ∧
        getHeaders (some k) (some tok) ua =
          [("Ocp-Apim-Subscription-Key", k), ("x-ms-useragent", ua)]) ∧
    (∀ (key token : Option String) (ua : String),
        ¬((∃ x, ("Ocp-Apim-Subscription-Key", x) ∈ getHeaders key token ua) ∧
          (∃ y, ("Authorization", y) ∈ getHeaders key token ua))) := by
  constructor
  · intro e v k tok ua he hv hk
    constructor
    · unfold clientInitChecks
      rw [if_neg, if_neg hv, if_neg he]
      rintro ⟨h1, -⟩
      exact hk h1
    · unfold getHeaders
      rw [if_pos (show (some k).getD "" ≠ "" from hk)]
      rfl
  · rintro key token ua ⟨⟨x, hx⟩, ⟨y, hy⟩⟩
    by_cases hkd : key.getD "" = ""
    · simp [getHeaders, hkd] at hx
    · simp [getHeaders, hkd] at hy

/-- C10, witness: a concrete key-and-token pair. -/
theorem c10_key_precedence_witness :
    clientInitChecks "https://e" "2024-12-01-preview" (some "sk") (some "tok") =
      .ok () ∧
    getHeaders (some "sk") (some "tok") "cu-sample-code" =
      [("Ocp-Apim-Subscription-Key", "sk"), ("x-ms-useragent", "cu-sample-code")] :=
  c10_key_precedence.1 "https://e" "2024-12-01-preview" "sk" "tok" "cu-sample-code"
    (by decide) (by decide) (by decide)

/-- C6, counterexample: the claim says a non-existing string is submitted as
a URL only when it carries a URL scheme prefix, anything else raising the
invalid-target error; but the code tests `"https://" in file_location`
(substring containment), so the non-existing, non-prefix-shaped string
`"xhttps://y"` is submitted as a URL instead of raising. -/
theorem c6_counterexample :
    urlSchemePrefixShaped "xhttps://y" = false ∧
    classifyTarget (fun _ => none) "xhttps://y" =
      .ok (.jsonUrl "xhttps://y", "application/json") := by
  exact ⟨rfl, rfl⟩

/-- C6, amended: `begin_analyze` checks local filesystem existence first; an
existing file is submitted as its exact byte content with the octet-stream
content type; a non-existing string containing `https://` or `http://`
anywhere as a substring is submitted as the JSON body `\x7b"url": <string>\x7d`;
any other string raises the invalid-target error before any request is
built. -/
theorem c6_target_classification :
    (∀ (fs : String → Option (List Nat)) (e v a loc : String) (bs : List Nat),
        fs loc = some bs →
        beginAnalyzeRequest fs e v a loc =
          .ok ⟨getAnalyzeUrl e v a, "application/octet-stream", .rawBytes bs⟩) ∧
    (∀ (fs : String → Option (List Nat)) (e v a loc : String),
        fs loc = none →
        (strContainsSub "https://" loc || strContainsSub "http://" loc) = true →
        beginAnalyzeRequest fs e v a loc =
          .ok ⟨getAnalyzeUrl e v a, "application/json", .jsonUrl loc⟩) ∧
    (∀ (fs : String → Option (List Nat)) (e v a loc : String),
        fs loc = none →
        (strContainsSub "https://" loc || strContainsSub "http://" loc) = false →
        beginAnalyzeRequest fs e v a loc = .error .invalidTarget) := by
  refine ⟨?_, ?_, ?_⟩
  · intro fs e v a loc bs h
    simp [beginAnalyzeRequest, classifyTarget, h]
  · intro fs e v a loc h hu
    simp [beginAnalyzeRequest, classifyTarget, h, hu]
  · intro fs e v a loc h hu
    simp [beginAnalyzeRequest, classifyTarget, h, hu]

/-- C6, witness: one filesystem exercising all three branches. -/
theorem c6_target_classification_witness :
    beginAnalyzeRequest (fun l => if l = "bill.pdf" then some [1, 2, 3] else none)
        "https://e" "v1" "a1" "bill.pdf" =
      .ok ⟨getAnalyzeUrl "https://e" "v1" "a1", "application/octet-stream",
        .rawBytes [1, 2, 3]⟩ ∧
    beginAnalyzeRequest (fun l => if l = "bill.pdf" then some [1, 2, 3] else none)
        "https://e" "v1" "a1" "https://docs/b.png" =
      .ok ⟨getAnalyzeUrl "https://e" "v1" "a1", "application/json",
        .jsonUrl "https://docs/b.png"⟩ ∧
    beginAnalyzeRequest (fun l => if l = "bill.pdf" then some [1, 2, 3] else none)
        "https://e" "v1" "a1" "nonsense" = .error .invalidTarget :=
  ⟨c6_target_classification.1
      (fun l => if l = "bill.pdf" then some [1, 2, 3] else none)
      "https://e" "v1" "a1" "bill.pdf" [1, 2, 3] (by decide),
    c6_target_classification.2.1
      (fun l => if l = "bill.pdf" then some [1, 2, 3] else none)
      "https://e" "v1" "a1" "https://docs/b.png" (by decide) (by decide),
    c6_target_classification.2.2
      (fun l => if l = "bill.pdf" then some [1, 2, 3] else none)
      "https://e" "v1" "a1" "nonsense" (by decide) (by decide)⟩

/-- C9, counterexample: the claim's URL template omits the
`/contentunderstanding` path segment that `_get_analyze_url` inserts; and a
`304` response — non-2xx — does not raise, since `raise_for_status` raises
only on 4xx/5xx. -/
theorem c9_counterexample :
    getAnalyzeUrl "https://host" "2024-12-01-preview" "utility-bill-analyzer" ≠
      claimedAnalyzeUrl "https://host" "2024-12-01-preview"
        "utility-bill-analyzer" ∧
    beginAnalyzeResult ⟨304, "not modified", none⟩ =
      .ok ⟨304, "not modified", none⟩ ∧
    ¬(200 ≤ (304 : Nat) ∧ (304 : Nat) < 300) := by
  refine ⟨by decide, rfl, by omega⟩

/-- C9, amended: every submission is a single POST to
`\x7bendpoint\x7d/contentunderstanding/analyzers/\x7banalyzer-id\x7d:analyze?api-version=\x7bversion\x7d`,
and a 4xx or 5xx response to that POST raises an HTTP error carrying the
status code and body (other codes are returned without raising). -/
theorem c9_submission_url_and_error :
    (∀ (fs : String → Option (List Nat)) (e v a loc : String)
        (req : PostRequest),
        beginAnalyzeRequest fs e v a loc = .ok req →
        req.url = e ++ "/contentunderstanding/analyzers/" ++ a ++
          ":analyze?api-version=" ++ v) ∧
    (∀ resp : HttpResponse, isHttpErrorCode resp.code →
        beginAnalyzeResult resp = .error (.httpError resp.code resp.body)) ∧
    (∀ resp : HttpResponse, ¬ isHttpErrorCode resp.code →
        beginAnalyzeResult resp = .ok resp) := by
  refine ⟨?_, ?_, ?_⟩
  · intro fs e v a loc req h
    unfold beginAnalyzeRequest at h
    cases hct : classifyTarget fs loc with
    | error err => rw [hct] at h; simp at h
    | ok p =>
      rw [hct] at h
      simp at h
      rw [← h]
      rfl
  · intro resp h
    simp [beginAnalyzeResult, h]
  · intro resp h
    simp [beginAnalyzeResult, h]

/-- C9, witness: the three parts at concrete inputs. -/
theorem c9_submission_url_and_error_witness :
    ("https://e/contentunderstanding/analyzers/a1:analyze?api-version=v1"
        : String) =
      "https://e" ++ "/contentunderstanding/analyzers/" ++ "a1" ++
        ":analyze?api-version=" ++ "v1" ∧
    beginAnalyzeResult ⟨500, "boom", none⟩ = .error (.httpError 500 "boom") ∧
    beginAnalyzeResult ⟨200, "accepted", some "https://op"⟩ =
      .ok ⟨200, "accepted", some "https://op"⟩ :=
  ⟨c9_submission_url_and_error.1 (fun _ => none) "https://e" "v1" "a1"
      "https://docs/b.png"
      ⟨"https://e/contentunderstanding/analyzers/a1:analyze?api-version=v1",
        "application/json", .jsonUrl "https://docs/b.png"⟩ rfl,
    c9_submission_url_and_error.2.1 ⟨500, "boom", none⟩ (by decide),
    c9_submission_url_and_error.2.2 ⟨200, "accepted", some "https://op"⟩
      (by decide)⟩

/-- C5, counterexample: the claim says a textual value with no numeric
substring maps to 0; but the digit-free string `"inf"` is accepted by
`float` itself, so `parse_consumption("inf")` returns infinity, not 0. -/
theorem c5_counterexample :
    parse_consumption (.str "inf") = .inf ∧
    searchNum (cleanChars "inf") = none ∧
    PyNum.inf ≠ .fin 0 := by
  exact ⟨rfl, rfl, by decide⟩

/-- C5, amended: an already-numeric value is returned as-is; a textual value
has commas and spaces stripped and its first signed-decimal substring parsed
(so `"1,234.5 kWh"` maps to 1234.5, `"—"` to 0, 42 to 42); when no numeric
substring is found the result is 0 — except for the digit-free strings that
Python's `float` itself accepts (optionally signed `inf`, `infinity`, `nan`
modulo surrounding whitespace), which are returned as that special value. -/
theorem c5_numeric_coercion :
    (∀ x : PyNum, parse_consumption (.num x) = x) ∧
    parse_consumption (.str "1,234.5 kWh") = .fin (2469 / 2) ∧
    parse_consumption (.str "—") = .fin 0 ∧
    parse_consumption (.num (.fin 42)) = .fin 42 ∧
    (∀ s : String, searchNum (cleanChars s) = none →
        specialOf (cleanChars s) = none → parse_consumption (.str s) = .fin 0) := by
  refine ⟨fun x => rfl, ?_, rfl, rfl, ?_⟩
  · simp +decide [parse_consumption, cleanChars, searchNum, numAt, numCore,
      decToRat, decCore, digitsToNat]
    norm_num
  intro s h1 h2
  simp [parse_consumption, h1, h2]

/-- C5, witness: a digit-free, non-special string degrades to zero. -/
theorem c5_numeric_coercion_witness :
    parse_consumption (.str "N/A") = .fin 0 :=
  c5_numeric_coercion.2.2.2.2 "N/A" (by decide) (by decide)

end Esgocr
